import Mathlib

/-!
Shallow embedding of the zero-copy display presentation layer of
`v4l2-decode` (`src/display.c`), with theorems checking the natural-language
specification against the code.

Modelling conventions:
* C `int` fields (widths, heights, offsets, strides, file descriptors) become
  `Int`; C `uint32_t` pixel formats become `Nat`.
* C integer division (`/` on `int`, truncating toward zero) is `Int.tdiv`,
  written `cdiv` below.
* Wayland protocol objects are abstracted to the state this layer keeps about
  them: a `wl_buffer *` handle becomes `Option Nat` (an opaque handle id or
  NULL), the presence of a bound global becomes a `Bool`.
* Asynchronous protocol replies that the code waits for with a blocking
  `wl_display_roundtrip` are passed as explicit inputs (`ImportReply`, the
  list of advertised globals), so each C function becomes a pure state
  transformer.
* Outbound protocol requests that matter to the claims (plane descriptors
  added to a `zwp_linux_buffer_params_v1`, the final create request, the
  viewport destination) are recorded in the result state.
-/

namespace V4l2Display

/-- C99 truncating integer division, the semantics of `/` on `int` in
`display.c` (both operands are non-negative in every claim considered). -/
def cdiv (a b : Int) : Int := Int.tdiv a b

/-- `struct fb` from `display.h`/`display.c`: one imported frame buffer.
`buffer` is the display-side `wl_buffer *` handle (`none` = NULL);
`hasReleaseCb` records that `release_cb`/`cb_data` have been installed by
`window_show_buffer`. -/
structure Fb where
  index : Int
  fd : Int
  offset : Int
  format : Nat
  width : Int
  height : Int
  stride : Int
  buffer : Option Nat
  hasReleaseCb : Bool
  deriving DecidableEq, Repr

/-- `struct window` from `display.c`.  `hasViewport` models the
`wp_viewport *` pointer being non-NULL; `viewportDest` records the last
`wp_viewport_set_destination` request issued for the window (`none` = the
window presents unscaled). -/
structure Window where
  hasViewport : Bool
  width : Int
  height : Int
  size_set : Bool
  configured : Bool
  buffer : Option Fb
  viewportDest : Option (Int × Int)
  deriving DecidableEq, Repr

/-- `struct display` from `display.c`.  The four `has*` flags model the bound
global pointers being non-NULL; `drm_formats` lists the cells of the
`uint32_t drm_formats[32]` array written so far, in order, and
`drm_format_count` mirrors the C counter. -/
structure Display where
  hasCompositor : Bool
  hasXdgShell : Bool
  hasViewporter : Bool
  hasDmabuf : Bool
  drm_formats : List Nat
  drm_format_count : Nat
  running : Bool
  deriving DecidableEq, Repr

/-- The zeroed `struct display` produced by `calloc` at the top of
`display_create`. -/
def display_init : Display :=
  { hasCompositor := false
    hasXdgShell := false
    hasViewporter := false
    hasDmabuf := false
    drm_formats := []
    drm_format_count := 0
    running := false }

/-- `display_is_running`. -/
def display_is_running (d : Display) : Bool := d.running

/-- `format_is_supported`: linear scan of the first `drm_format_count`
entries of `drm_formats`. -/
def format_is_supported (d : Display) (format : Nat) : Bool :=
  (d.drm_formats.take d.drm_format_count).any (fun f => f = format)

/-- `dmabuf_format` listener: appends the advertised format at index
`drm_format_count` of the 32-cell array and increments the counter.  The
bounds assertion the C code performs before the write is modelled separately
by `dmabuf_assert_passes` and the written index by `dmabuf_write_index`. -/
def dmabuf_format (d : Display) (format : Nat) : Display :=
  { d with
    drm_formats := d.drm_formats ++ [format]
    drm_format_count := d.drm_format_count + 1 }

/-- The check `assert(d->drm_format_count <= 32)` that `dmabuf_format`
evaluates before writing. -/
def dmabuf_assert_passes (d : Display) : Bool := d.drm_format_count ≤ 32

/-- The array index `d->drm_format_count` that `dmabuf_format` writes to
(the array `drm_formats` has exactly 32 cells). -/
def dmabuf_write_index (d : Display) : Nat := d.drm_format_count

/-- Capacity of the `uint32_t drm_formats[32]` array. -/
def drm_formats_capacity : Nat := 32

/-- A sequence of `dmabuf_format` advertisements delivered during capability
discovery. -/
def deliver_formats (d : Display) (fs : List Nat) : Display :=
  fs.foldl dmabuf_format d

/-- `registry_handle_global`: binds the four recognized globals by interface
name (`strcmp` chain); all other interfaces are ignored. -/
def registry_handle_global (d : Display) (interface : String) : Display :=
  if interface = "wl_compositor" then { d with hasCompositor := true }
  else if interface = "wp_viewporter" then { d with hasViewporter := true }
  else if interface = "zxdg_shell_v6" then { d with hasXdgShell := true }
  else if interface = "zwp_linux_dmabuf_v1" then { d with hasDmabuf := true }
  else d

/-- `display_create`.  `allocOk` models the `calloc` outcome, `connectOk`
the `wl_display_connect` outcome, and `globals` the interface names
advertised during the registry round-trip.  After the round-trip the code
fails unless both the xdg shell and the dmabuf global were bound; on success
it sets `running = 1`. -/
def display_create (allocOk connectOk : Bool) (globals : List String) :
    Option Display :=
  if allocOk = false then none
  else if connectOk = false then none
  else
    let d := globals.foldl registry_handle_global display_init
    if d.hasXdgShell = false ∨ d.hasDmabuf = false then none
    else some { d with running := true }

/-- `display_create_window`.  `allocOk` models the `calloc` outcome; on
success the window starts zeroed (`unconfigured`, no size, no buffer) with a
viewport exactly when the viewporter global is present. -/
def display_create_window (allocOk : Bool) (d : Display) : Option Window :=
  if allocOk = false then none
  else
    some
      { hasViewport := d.hasViewporter
        width := 0
        height := 0
        size_set := false
        configured := false
        buffer := none
        viewportDest := none }

/-- `window_recenter`: if the window has a shown buffer, a viewport and a
positive size, issues `wp_viewport_set_destination` with the
aspect-preserving size and returns 1; otherwise leaves the window untouched
and returns 0. -/
def window_recenter (w : Window) : Window × Bool :=
  match w.buffer with
  | none => (w, false)
  | some fb =>
    if w.hasViewport = false ∨ w.width ≤ 0 ∨ w.height ≤ 0 then (w, false)
    else if fb.width > fb.height then
      ({ w with
          viewportDest :=
            some (w.width, cdiv (w.width * fb.height) fb.width) }, true)
    else
      ({ w with
          viewportDest :=
            some (cdiv (w.height * fb.width) fb.height, w.height) }, true)

/-- The destination formula as the specification words it (section 4.5):
given window size `(W,H)` and buffer size `(bw,bh)`, if `bw > bh` scale to
width `W` with height `W*bh/bw`, otherwise to height `H` with width
`H*bw/bh` (integer division). -/
def viewport_dest_spec (W H bw bh : Int) : Int × Int :=
  if bw > bh then (W, cdiv (W * bh) bw) else (cdiv (H * bw) bh, H)

/-- `xdg_toplevel_handle_configure`: ignores events with a non-positive
dimension or on a window without a viewport; otherwise stores the size and
sets `size_set` when it differs from the current one. -/
def xdg_toplevel_handle_configure (w : Window) (width height : Int) :
    Window :=
  if width ≤ 0 ∨ height ≤ 0 ∨ w.hasViewport = false then w
  else if w.width ≠ width ∨ w.height ≠ height then
    { w with width := width, height := height, size_set := true }
  else w

/-- `xdg_toplevel_handle_close`: clears the display running flag. -/
def xdg_toplevel_handle_close (d : Display) : Display :=
  { d with running := false }

/-- `xdg_surface_handle_configure`: acknowledges the serial synchronously
(returned unchanged as the second component), marks the window configured,
and recenters (committing, which changes no modelled state, when
`window_recenter` returns 1). -/
def xdg_surface_handle_configure (w : Window) (serial : Nat) :
    Window × Nat :=
  let w' := { w with configured := true }
  ((window_recenter w').1, serial)

/-- `window_show_buffer`: installs the release callback, binds the buffer as
current, adopts the buffer's own dimensions when no explicit size was ever
set, and — only when the window is already configured — recenters and
commits.  (The trailing `wl_display_roundtrip` delivers pending events; it
is modelled by the caller applying the corresponding handlers.) -/
def window_show_buffer (w : Window) (fb : Fb) : Window :=
  let fb' := { fb with hasReleaseCb := true }
  let w1 := { w with buffer := some fb' }
  let w2 :=
    if w1.size_set = false then
      { w1 with width := fb'.width, height := fb'.height }
    else w1
  if w2.configured = true then (window_recenter w2).1 else w2

/-- The compositor's reply to the buffer-import handshake, delivered during
the blocking round-trip in `window_create_buffer`. -/
inductive ImportReply where
  | succeeded (handle : Nat)
  | failed
  deriving DecidableEq, Repr

/-- Whether the reply was `create.succeeded`. -/
def ImportReply.isSucceeded : ImportReply → Bool
  | .succeeded _ => true
  | .failed => false

/-- `create_succeeded` listener: binds the new `wl_buffer` handle to the fb
(and installs the release listener); the params object is destroyed. -/
def create_succeeded (fb : Fb) (newBuffer : Nat) : Fb :=
  { fb with buffer := some newBuffer }

/-- `create_failed` listener: leaves the fb's buffer handle NULL, the params
object is destroyed, and the display's running flag is cleared. -/
def create_failed (fb : Fb) (d : Display) : Fb × Display :=
  ({ fb with buffer := none }, { d with running := false })

/-- Outcome of `window_create_buffer` as seen by the caller. -/
inductive CreateBufResult where
  /-- a non-NULL `struct fb *` was returned -/
  | ok (fb : Fb)
  /-- NULL was returned -/
  | nullResult
  /-- undefined behaviour: the code dereferenced the NULL pointer returned
  by a failed `calloc` (`fb->index = index` with `fb == NULL`) -/
  | nullDeref
  deriving DecidableEq, Repr

/-- Whether a non-NULL fb was returned. -/
def CreateBufResult.isOk : CreateBufResult → Bool
  | .ok _ => true
  | _ => false

/-- One `zwp_linux_buffer_params_v1.add` request:
`(fd, plane_idx, offset, stride, modifier_hi, modifier_lo)`. -/
structure PlaneAdd where
  fd : Int
  plane_idx : Nat
  offset : Int
  stride : Int
  modifier_hi : Nat
  modifier_lo : Nat
  deriving DecidableEq, Repr

/-- The final `zwp_linux_buffer_params_v1.create` request:
width, height, format, flags. -/
structure CreateRequest where
  width : Int
  height : Int
  format : Nat
  flags : Nat
  deriving DecidableEq, Repr

/-- Everything observable about one `window_create_buffer` call: the value
returned to the caller, the fb state right after the round-trip (before the
failure path frees it; `none` when no fb was ever populated), the display
state after the call, whether the params object was destroyed, and the
protocol requests issued. -/
structure ImportResult where
  result : CreateBufResult
  fbAfterRoundtrip : Option Fb
  display : Display
  paramsDestroyed : Bool
  planeAdds : List PlaneAdd
  createRequest : Option CreateRequest
  deriving DecidableEq, Repr

/-- `window_create_buffer`: populates a fresh fb (the `calloc` result is NOT
checked — a failed allocation is dereferenced), creates a params object,
adds the single plane descriptor `(fd, 0, offset, stride, 0, 0)`, registers
the success/failure listeners, requests creation with
`(width, height, format, 0)`, and performs a blocking round-trip that
delivers `reply`.  If the fb has no bound handle afterwards the fb is freed
and NULL is returned. -/
def window_create_buffer (allocOk : Bool) (d : Display)
    (index fd offset : Int) (format : Nat) (width height stride : Int)
    (reply : ImportReply) : ImportResult :=
  if allocOk = false then
    { result := .nullDeref
      fbAfterRoundtrip := none
      display := d
      paramsDestroyed := false
      planeAdds := []
      createRequest := none }
  else
    let fb0 : Fb :=
      { index := index
        fd := fd
        offset := offset
        format := format
        width := width
        height := height
        stride := stride
        buffer := none
        hasReleaseCb := false }
    let adds : List PlaneAdd :=
      [{ fd := fd
         plane_idx := 0
         offset := offset
         stride := stride
         modifier_hi := 0
         modifier_lo := 0 }]
    let req : CreateRequest :=
      { width := width, height := height, format := format, flags := 0 }
    match reply with
    | .succeeded h =>
      let fb := create_succeeded fb0 h
      { result := .ok fb
        fbAfterRoundtrip := some fb
        display := d
        paramsDestroyed := true
        planeAdds := adds
        createRequest := some req }
    | .failed =>
      let (fb, d') := create_failed fb0 d
      { result := .nullResult
        fbAfterRoundtrip := some fb
        display := d'
        paramsDestroyed := true
        planeAdds := adds
        createRequest := some req }

/-! ## Theorems -/

/-- **C1.** For every buffer import in which the compositing service replies
with failure, `window_create_buffer` leaves the FrameBuffer's display-side
buffer handle null, destroys the buffer-parameters object, clears the
display's running flag (so `display_is_running` returns false afterwards),
and returns null rather than a FrameBuffer. -/
theorem import_failure_path (d : Display) (index fd offset : Int)
    (format : Nat) (width height stride : Int) :
    let r := window_create_buffer true d index fd offset format width height
      stride ImportReply.failed
    r.fbAfterRoundtrip.map Fb.buffer = some none ∧
    r.paramsDestroyed = true ∧
    display_is_running r.display = false ∧
    r.result = CreateBufResult.nullResult := by
  refine ⟨rfl, rfl, rfl, rfl⟩

/-- **C8.** The capacity check `assert(drm_format_count <= 32)` in
`dmabuf_format` does not keep every write inside the 32-cell format array:
after 32 advertisements the assertion still passes while the next write
index is 32, one past the last valid index.  The membership test
`format_is_supported` does report exactly the recorded entries. -/
theorem format_array_overflow :
    dmabuf_assert_passes
      (deliver_formats display_init (List.replicate 32 842094158)) = true ∧
    ¬ dmabuf_write_index
        (deliver_formats display_init (List.replicate 32 842094158)) <
      drm_formats_capacity ∧
    format_is_supported
      (deliver_formats display_init (List.replicate 32 842094158))
      842094158 = true ∧
    format_is_supported
      (deliver_formats display_init (List.replicate 32 842094158))
      808669784 = false := by
  decide

/-- **C9.** Out-of-memory on the internal allocation yields a null result
from `display_create` and `display_create_window`, but `window_create_buffer`
does not check its `calloc` and dereferences the null pointer instead of
returning null. -/
theorem oom_window_create_buffer_crashes :
    display_create false true ["zxdg_shell_v6", "zwp_linux_dmabuf_v1"] =
      none ∧
    display_create_window false display_init = none ∧
    (window_create_buffer false display_init 0 0 0 0 0 0 0
        ImportReply.failed).result = CreateBufResult.nullDeref ∧
    CreateBufResult.nullDeref ≠ CreateBufResult.nullResult := by
  refine ⟨rfl, rfl, rfl, by decide⟩

/-- **C10.** `window_create_buffer` never consults the discovered
pixel-format set: for every format argument and every format set it adds
the single plane descriptor and issues the create request, and whether
the buffer import succeeds is decided solely by the service's reply — the
handshake is issued even for a format `format_is_supported` rejects. -/
theorem import_ignores_format_set (d d' : Display) (index fd offset : Int)
    (format format' : Nat) (width height stride : Int)
    (reply : ImportReply) :
    let r := window_create_buffer true d index fd offset format width height
      stride reply
    r.planeAdds = [(⟨fd, 0, offset, stride, 0, 0⟩ : PlaneAdd)] ∧
    r.createRequest = some (⟨width, height, format, 0⟩ : CreateRequest) ∧
    r.result.isOk = reply.isSucceeded ∧
    (window_create_buffer true d' index fd offset format' width height
        stride reply).result.isOk = r.result.isOk ∧
    (format_is_supported d format = false →
      r.createRequest =
        some (⟨width, height, format, 0⟩ : CreateRequest)) := by
  cases reply <;>
    exact ⟨rfl, rfl, rfl, rfl, fun _ => rfl⟩

/-- Witness for `import_ignores_format_set`: a fresh display supports no
formats, yet the create request is still issued. -/
theorem import_ignores_format_set_witness :
    (window_create_buffer true display_init 0 3 0 842094158 640 480 640
        ImportReply.failed).createRequest =
      some (⟨640, 480, 842094158, 0⟩ : CreateRequest) := by
  exact (import_ignores_format_set display_init display_init 0 3 0 842094158
    842094158 640 480 640 ImportReply.failed).2.2.2.2 (by decide)

/-- A boolean that is not false is true. -/
lemma bool_ne_false (b : Bool) (h : ¬ b = false) : b = true := by
  cases b
  · exact absurd rfl h
  · rfl

/-- One registry event binds the dmabuf global exactly for its interface
name. -/
lemma registry_global_dmabuf_iff (d : Display) (s : String) :
    ((registry_handle_global d s).hasDmabuf = true ↔
      (d.hasDmabuf = true ∨ s = "zwp_linux_dmabuf_v1")) := by
  unfold registry_handle_global
  split_ifs with h1 h2 h3 h4
  · simp [h1]
  · simp [h2]
  · simp [h3]
  · simp [h4]
  · simp [h4]

/-- One registry event binds the xdg shell global exactly for its interface
name. -/
lemma registry_global_shell_iff (d : Display) (s : String) :
    ((registry_handle_global d s).hasXdgShell = true ↔
      (d.hasXdgShell = true ∨ s = "zxdg_shell_v6")) := by
  unfold registry_handle_global
  split_ifs with h1 h2 h3 h4
  · simp [h1]
  · simp [h2]
  · simp [h3]
  · simp [h4, h3]
  · simp [h3]

/-- After the discovery round-trip the dmabuf global is bound iff its
interface name was advertised. -/
lemma foldl_registry_dmabuf (gs : List String) (d : Display) :
    ((gs.foldl registry_handle_global d).hasDmabuf = true ↔
      (d.hasDmabuf = true ∨ "zwp_linux_dmabuf_v1" ∈ gs)) := by
  induction gs generalizing d with
  | nil => simp
  | cons g gs ih =>
    simp only [List.foldl_cons, ih, registry_global_dmabuf_iff,
      List.mem_cons]
    constructor
    · rintro ((h | h) | h)
      · exact Or.inl h
      · exact Or.inr (Or.inl h.symm)
      · exact Or.inr (Or.inr h)
    · rintro (h | h | h)
      · exact Or.inl (Or.inl h)
      · exact Or.inl (Or.inr h.symm)
      · exact Or.inr h

/-- After the discovery round-trip the xdg shell global is bound iff its
interface name was advertised. -/
lemma foldl_registry_shell (gs : List String) (d : Display) :
    ((gs.foldl registry_handle_global d).hasXdgShell = true ↔
      (d.hasXdgShell = true ∨ "zxdg_shell_v6" ∈ gs)) := by
  induction gs generalizing d with
  | nil => simp
  | cons g gs ih =>
    simp only [List.foldl_cons, ih, registry_global_shell_iff,
      List.mem_cons]
    constructor
    · rintro ((h | h) | h)
      · exact Or.inl h
      · exact Or.inr (Or.inl h.symm)
      · exact Or.inr (Or.inr h)
    · rintro (h | h | h)
      · exact Or.inl (Or.inl h)
      · exact Or.inl (Or.inr h.symm)
      · exact Or.inr h

/-- **C2.** With the internal allocation succeeding, `display_create`
returns null exactly when the connection fails or the windowing-shell or
buffer-import global is absent from the advertised set; every successful
creation has the running flag set; and a service advertising no
buffer-import authority always yields a failed creation. -/
theorem session_create_failure_iff (connectOk : Bool) (globals : List String) :
    (display_create true connectOk globals = none ↔
      (connectOk = false ∨ "zxdg_shell_v6" ∉ globals ∨
        "zwp_linux_dmabuf_v1" ∉ globals)) ∧
    (∀ d, display_create true connectOk globals = some d →
      display_is_running d = true) ∧
    ("zwp_linux_dmabuf_v1" ∉ globals →
      display_create true connectOk globals = none) := by
  have hs := foldl_registry_shell globals display_init
  have hd := foldl_registry_dmabuf globals display_init
  rw [show display_init.hasXdgShell = false from rfl] at hs
  rw [show display_init.hasDmabuf = false from rfl] at hd
  simp only [Bool.false_eq_true, false_or] at hs hd
  refine ⟨?_, ?_, ?_⟩
  · cases connectOk with
    | false => simp [display_create]
    | true =>
      simp only [display_create, if_neg (by simp : ¬ (true = false))]
      split_ifs with hcond
      · apply iff_of_true rfl
        rcases hcond with h | h
        · exact Or.inr (Or.inl fun hmem => by simp [hs.mpr hmem] at h)
        · exact Or.inr (Or.inr fun hmem => by simp [hd.mpr hmem] at h)
      · push_neg at hcond
        apply iff_of_false (by simp)
        push_neg
        exact ⟨by simp, hs.mp (bool_ne_false _ hcond.1),
          hd.mp (bool_ne_false _ hcond.2)⟩
  · intro d h
    simp only [display_create] at h
    split_ifs at h
    all_goals first
      | exact Option.noConfusion h
      | (simp only [Option.some.injEq] at h; subst h; rfl)
  · intro hmem
    cases connectOk with
    | false => simp [display_create]
    | true =>
      have hcond : (globals.foldl registry_handle_global
          display_init).hasDmabuf = false := by
        rcases hb : (globals.foldl registry_handle_global
          display_init).hasDmabuf with _ | _
        · rfl
        · exact absurd (hd.mp hb) hmem
      simp [display_create, hcond]

/-- Witness for `session_create_failure_iff`:
a full advertisement set yields a running session, and a set without the
buffer-import authority yields null. -/
theorem session_create_failure_iff_witness :
    display_is_running ⟨true, true, false, true, [], 0, true⟩ = true ∧
    display_create true true ["wl_compositor", "zxdg_shell_v6"] = none := by
  constructor
  · exact (session_create_failure_iff true
      ["wl_compositor", "zxdg_shell_v6", "zwp_linux_dmabuf_v1"]).2.1 _ rfl
  · exact (session_create_failure_iff true
      ["wl_compositor", "zxdg_shell_v6"]).2.2 (by decide)

/-- When a buffer is shown, a viewport exists and the window size is
positive, `window_recenter` sets the destination to the spec formula and
reports success. -/
lemma window_recenter_eq (w : Window) (fb : Fb) (hbuf : w.buffer = some fb)
    (hvp : w.hasViewport = true) (hW : 0 < w.width) (hH : 0 < w.height) :
    window_recenter w =
      ({ w with
          viewportDest :=
            some (viewport_dest_spec w.width w.height fb.width fb.height) },
        true) := by
  unfold window_recenter viewport_dest_spec
  simp only [hbuf]
  have hc : ¬ (w.hasViewport = false ∨ w.width ≤ 0 ∨ w.height ≤ 0) := by
    push_neg
    exact ⟨by simp [hvp], by omega, by omega⟩
  rw [if_neg hc]
  by_cases hwh : fb.width > fb.height
  · rw [if_pos hwh, if_pos hwh]
  · rw [if_neg hwh, if_neg hwh]

/-- When the buffer, the viewport or a positive size is missing,
`window_recenter` leaves the window untouched and reports failure. -/
lemma window_recenter_id (w : Window)
    (h : w.buffer = none ∨ w.hasViewport = false ∨ w.width ≤ 0 ∨
      w.height ≤ 0) :
    window_recenter w = (w, false) := by
  by_cases hnone : w.buffer = none
  · unfold window_recenter
    simp only [hnone]
  · obtain ⟨fb, hbuf⟩ := Option.ne_none_iff_exists'.mp hnone
    unfold window_recenter
    simp only [hbuf]
    rw [if_pos]
    rcases h with h | h
    · exact absurd h hnone
    · exact h

/-- **C3.** For every window with a viewport, a shown FrameBuffer and a
positive size, the recomputed viewport destination is the spec formula
(width-bound `(W, W*bh/bw)` when `bw > bh`, else `(H*bw/bh, H)`, integer
division); when the buffer, viewport or a positive size is missing, no
destination is set. -/
theorem recenter_matches_spec_formula (w : Window) :
    (∀ fb, w.buffer = some fb → w.hasViewport = true → 0 < w.width →
      0 < w.height →
      (window_recenter w).1.viewportDest =
        some (viewport_dest_spec w.width w.height fb.width fb.height)) ∧
    ((w.buffer = none ∨ w.hasViewport = false ∨ w.width ≤ 0 ∨
        w.height ≤ 0) →
      (window_recenter w).1.viewportDest = w.viewportDest ∧
      (window_recenter w).2 = false) := by
  constructor
  · intro fb hbuf hvp hW hH
    simp [window_recenter_eq w fb hbuf hvp hW hH]
  · intro h
    rw [window_recenter_id w h]
    exact ⟨rfl, rfl⟩

/-- Witness for `recenter_matches_spec_formula` at a 800x600 window showing
a 320x240 buffer. -/
theorem recenter_matches_spec_formula_witness :
    (window_recenter ⟨true, 800, 600, true, true,
        some ⟨0, 3, 0, 842094158, 320, 240, 640, some 7, false⟩,
        none⟩).1.viewportDest =
      some (viewport_dest_spec 800 600 320 240) := by
  exact (recenter_matches_spec_formula ⟨true, 800, 600, true, true,
      some ⟨0, 3, 0, 842094158, 320, 240, 640, some 7, false⟩, none⟩).1
    ⟨0, 3, 0, 842094158, 320, 240, 640, some 7, false⟩ rfl rfl
    (by decide) (by decide)

/-- **C4, counterexample.** A 1000x1 window showing a 2x1 buffer gets
viewport destination (1000, 500), and 500 is not at most the window height
1 — the claimed bound `vh ≤ H` fails. -/
theorem dest_exceeds_window_height :
    (window_recenter ⟨true, 1000, 1, true, true,
        some ⟨0, 0, 0, 0, 2, 1, 0, none, false⟩, none⟩).1.viewportDest =
      some (1000, 500) ∧
    ¬ ((500 : Int) ≤ (1 : Int)) := by
  decide

/-- **C4, amended.** For positive window and buffer sizes the computed
destination `(vw, vh)` satisfies `|vw*bh - vh*bw| < max bw bh`; the bound
`vw ≤ W` holds in the width-bound case `bw > bh` and `vh ≤ H` in the
height-bound case `bw ≤ bh` (neither holds unconditionally). -/
theorem dest_aspect_ratio_bound (w : Window) (fb : Fb)
    (hbuf : w.buffer = some fb) (hvp : w.hasViewport = true)
    (hW : 0 < w.width) (hH : 0 < w.height)
    (hbw : 0 < fb.width) (hbh : 0 < fb.height) :
    (window_recenter w).1.viewportDest =
      some (viewport_dest_spec w.width w.height fb.width fb.height) ∧
    |(viewport_dest_spec w.width w.height fb.width fb.height).1 * fb.height -
        (viewport_dest_spec w.width w.height fb.width fb.height).2 *
          fb.width| <
      max fb.width fb.height ∧
    (fb.height < fb.width →
      (viewport_dest_spec w.width w.height fb.width fb.height).1 ≤
        w.width) ∧
    (fb.width ≤ fb.height →
      (viewport_dest_spec w.width w.height fb.width fb.height).2 ≤
        w.height) := by
  refine ⟨by simp [window_recenter_eq w fb hbuf hvp hW hH], ?_, ?_, ?_⟩
  · unfold viewport_dest_spec
    by_cases hc : fb.width > fb.height
    · rw [if_pos hc]
      have ha : (0 : Int) ≤ w.width * fb.height :=
        mul_nonneg (le_of_lt hW) (le_of_lt hbh)
      have hcd : cdiv (w.width * fb.height) fb.width =
          w.width * fb.height / fb.width := by
        unfold cdiv
        exact Int.tdiv_eq_ediv ha (le_of_lt hbw)
      have hdm := Int.ediv_add_emod (w.width * fb.height) fb.width
      have hmodlt := Int.emod_lt_of_pos (w.width * fb.height) hbw
      have hmodnn := Int.emod_nonneg (w.width * fb.height)
        (by omega : fb.width ≠ 0)
      have heq : w.width * fb.height -
          w.width * fb.height / fb.width * fb.width =
          w.width * fb.height % fb.width := by
        have hmc : fb.width * (w.width * fb.height / fb.width) =
            w.width * fb.height / fb.width * fb.width :=
          mul_comm _ _
        linarith
      simp only [hcd]
      rw [heq, abs_of_nonneg hmodnn]
      exact lt_of_lt_of_le hmodlt (le_max_left _ _)
    · rw [if_neg hc]
      have ha : (0 : Int) ≤ w.height * fb.width :=
        mul_nonneg (le_of_lt hH) (le_of_lt hbw)
      have hcd : cdiv (w.height * fb.width) fb.height =
          w.height * fb.width / fb.height := by
        unfold cdiv
        exact Int.tdiv_eq_ediv ha (le_of_lt hbh)
      have hdm := Int.ediv_add_emod (w.height * fb.width) fb.height
      have hmodlt := Int.emod_lt_of_pos (w.height * fb.width) hbh
      have hmodnn := Int.emod_nonneg (w.height * fb.width)
        (by omega : fb.height ≠ 0)
      have heq : w.height * fb.width / fb.height * fb.height -
          w.height * fb.width =
          -(w.height * fb.width % fb.height) := by
        have hmc : fb.height * (w.height * fb.width / fb.height) =
            w.height * fb.width / fb.height * fb.height :=
          mul_comm _ _
        linarith
      simp only [hcd]
      rw [heq, abs_neg, abs_of_nonneg hmodnn]
      exact lt_of_lt_of_le hmodlt (le_max_right _ _)
  · intro hlt
    unfold viewport_dest_spec
    rw [if_pos hlt]
  · intro hle
    unfold viewport_dest_spec
    rw [if_neg (by omega : ¬ fb.width > fb.height)]

/-- Witness for `dest_aspect_ratio_bound` at a 1280x720 window showing a
1920x1080 buffer. -/
theorem dest_aspect_ratio_bound_witness :
    |(viewport_dest_spec 1280 720 1920 1080).1 * 1080 -
        (viewport_dest_spec 1280 720 1920 1080).2 * 1920| <
      max (1920 : Int) 1080 := by
  exact (dest_aspect_ratio_bound ⟨true, 1280, 720, true, true,
      some ⟨0, 0, 0, 0, 1920, 1080, 0, none, false⟩, none⟩
    ⟨0, 0, 0, 0, 1920, 1080, 0, none, false⟩ rfl rfl
    (by decide) (by decide) (by decide) (by decide)).2.1

/-- **C5, counterexample.** A window configured at 1280x720 showing a
1920x1080 buffer does not get destination (1280, 405): the height formula
is `W*bh/bw = 1280*1080/1920 = 720`, not `H*bh/bw = 405`. -/
theorem scenario_c_not_405 :
    (window_recenter ⟨true, 1280, 720, true, true,
        some ⟨0, 3, 0, 842094158, 1920, 1080, 3840, some 9, false⟩,
        none⟩).1.viewportDest ≠
      some (1280, 405) := by
  decide

/-- **C5, amended.** A window configured at 1280x720 showing a 1920x1080
buffer gets the width-bound destination (1280, 1280*1080/1920) =
(1280, 720). -/
theorem scenario_c_dest :
    (window_recenter ⟨true, 1280, 720, true, true,
        some ⟨0, 3, 0, 842094158, 1920, 1080, 3840, some 9, false⟩,
        none⟩).1.viewportDest =
      some (1280, 720) := by
  decide

/-- `window_recenter` changes at most the viewport destination: size,
configured state and bound buffer are preserved. -/
lemma window_recenter_preserves (w : Window) :
    (window_recenter w).1.width = w.width ∧
    (window_recenter w).1.height = w.height ∧
    (window_recenter w).1.configured = w.configured ∧
    (window_recenter w).1.buffer = w.buffer := by
  by_cases hnone : w.buffer = none
  · rw [window_recenter_id w (Or.inl hnone)]
    exact ⟨rfl, rfl, rfl, rfl⟩
  · obtain ⟨fb, hbuf⟩ := Option.ne_none_iff_exists'.mp hnone
    unfold window_recenter
    simp only [hbuf]
    split_ifs <;> exact ⟨rfl, rfl, rfl, by simp [hbuf]⟩

/-- `window_show_buffer` on an unconfigured window with no explicit size:
binds the buffer, adopts its dimensions, performs no recenter/commit. -/
lemma window_show_buffer_unconfigured (w : Window) (fb : Fb)
    (hsz : w.size_set = false) (hc : w.configured = false) :
    window_show_buffer w fb =
      { w with
          width := fb.width
          height := fb.height
          buffer := some { fb with hasReleaseCb := true } } := by
  unfold window_show_buffer
  simp [hsz, hc]

/-- `window_show_buffer` on a configured window with no explicit size:
binds the buffer, adopts its dimensions, then recenters. -/
lemma window_show_buffer_configured (w : Window) (fb : Fb)
    (hsz : w.size_set = false) (hc : w.configured = true) :
    window_show_buffer w fb =
      (window_recenter
        { w with
            width := fb.width
            height := fb.height
            buffer := some { fb with hasReleaseCb := true } }).1 := by
  unfold window_show_buffer
  simp [hsz, hc]

/-- **C6.** `window_show_buffer` on a window whose `size_set` flag was never
set adopts the framebuffer's own width and height; if the window is not yet
configured the viewport destination is not computed during the show, and it
is computed once the surface configure acknowledgment makes the window
configured (given a viewport and positive buffer dimensions). -/
theorem show_adopts_size_defers_viewport (w : Window) (fb : Fb)
    (hsz : w.size_set = false) :
    (window_show_buffer w fb).width = fb.width ∧
    (window_show_buffer w fb).height = fb.height ∧
    (w.configured = false →
      (window_show_buffer w fb).viewportDest = w.viewportDest ∧
      (window_show_buffer w fb).configured = false) ∧
    (w.configured = false → w.hasViewport = true → 0 < fb.width →
      0 < fb.height →
      (xdg_surface_handle_configure
          (window_show_buffer w fb) 1).1.configured = true ∧
      (xdg_surface_handle_configure
          (window_show_buffer w fb) 1).1.viewportDest =
        some (viewport_dest_spec fb.width fb.height fb.width
          fb.height)) := by
  cases hc : w.configured with
  | false =>
    rw [window_show_buffer_unconfigured w fb hsz hc]
    refine ⟨rfl, rfl, fun _ => ⟨rfl, hc⟩, fun _ hvp hfw hfh => ?_⟩
    simp only [xdg_surface_handle_configure]
    rw [window_recenter_eq
      { w with
          width := fb.width
          height := fb.height
          configured := true
          buffer := some { fb with hasReleaseCb := true } }
      { fb with hasReleaseCb := true } rfl hvp hfw hfh]
    exact ⟨rfl, rfl⟩
  | true =>
    rw [window_show_buffer_configured w fb hsz hc]
    have hp := window_recenter_preserves
      { w with
          width := fb.width
          height := fb.height
          buffer := some { fb with hasReleaseCb := true } }
    exact ⟨hp.1, hp.2.1, fun h => Bool.noConfusion h,
      fun h _ _ _ => Bool.noConfusion h⟩

/-- Witness for `show_adopts_size_defers_viewport`: Scenario B, a 640x480
buffer shown with no prior configure. -/
theorem show_adopts_size_defers_viewport_witness :
    (window_show_buffer ⟨true, 0, 0, false, false, none, none⟩
        ⟨0, 5, 0, 842094158, 640, 480, 1280, some 2, false⟩).width = 640 ∧
    (window_show_buffer ⟨true, 0, 0, false, false, none, none⟩
        ⟨0, 5, 0, 842094158, 640, 480, 1280, some 2, false⟩).viewportDest =
      none ∧
    (xdg_surface_handle_configure
        (window_show_buffer ⟨true, 0, 0, false, false, none, none⟩
          ⟨0, 5, 0, 842094158, 640, 480, 1280, some 2, false⟩)
        1).1.viewportDest =
      some (viewport_dest_spec 640 480 640 480) := by
  have h := show_adopts_size_defers_viewport
    ⟨true, 0, 0, false, false, none, none⟩
    ⟨0, 5, 0, 842094158, 640, 480, 1280, some 2, false⟩ rfl
  exact ⟨h.1, (h.2.2.1 rfl).1, (h.2.2.2 rfl rfl (by decide) (by decide)).2⟩

/-- **C7, counterexample.** On a window without a viewport, a toplevel
configure event with positive dimensions that differ from the current size
updates nothing: the handler returns early and `size_set` stays false. -/
theorem configure_ignored_without_viewport :
    xdg_toplevel_handle_configure ⟨false, 0, 0, false, false, none, none⟩
        100 100 =
      ⟨false, 0, 0, false, false, none, none⟩ ∧
    ¬ ((xdg_toplevel_handle_configure ⟨false, 0, 0, false, false, none,
        none⟩ 100 100).size_set = true) := by
  decide

/-- **C7, amended.** On a window with a viewport, a toplevel configure event
whose dimensions are both positive and differ from the current size updates
the stored size and sets `size_set`; events with a non-positive dimension,
or delivered to a window without a viewport, leave the window unchanged. -/
theorem configure_updates_size (w : Window) (width height : Int) :
    (w.hasViewport = true → 0 < width → 0 < height →
      (w.width ≠ width ∨ w.height ≠ height) →
      (xdg_toplevel_handle_configure w width height).width = width ∧
      (xdg_toplevel_handle_configure w width height).height = height ∧
      (xdg_toplevel_handle_configure w width height).size_set = true) ∧
    ((width ≤ 0 ∨ height ≤ 0) →
      xdg_toplevel_handle_configure w width height = w) ∧
    (w.hasViewport = false →
      xdg_toplevel_handle_configure w width height = w) := by
  refine ⟨?_, ?_, ?_⟩
  · intro hvp hw hh hne
    unfold xdg_toplevel_handle_configure
    rw [if_neg (by push_neg; exact ⟨by omega, by omega, by simp [hvp]⟩),
      if_pos hne]
    exact ⟨rfl, rfl, rfl⟩
  · intro h
    unfold xdg_toplevel_handle_configure
    rcases h with h | h
    · rw [if_pos (Or.inl h)]
    · rw [if_pos (Or.inr (Or.inl h))]
  · intro h
    unfold xdg_toplevel_handle_configure
    rw [if_pos (Or.inr (Or.inr h))]

/-- Witness for `configure_updates_size`: a 1280x720 configure event on a
fresh window with a viewport. -/
theorem configure_updates_size_witness :
    (xdg_toplevel_handle_configure ⟨true, 0, 0, false, false, none, none⟩
        1280 720).size_set = true := by
  exact ((configure_updates_size ⟨true, 0, 0, false, false, none, none⟩
    1280 720).1 rfl (by decide) (by decide) (by decide)).2.2

end V4l2Display
